import Mathlib

/-!
Verification of the VireScanPro LLM orchestration engine.

This file shallowly embeds the TypeScript service layer of the repository:

* `TextIntelligenceService` / `PlagiarismService` (src/unnamed/part_001):
  the JSON sanitizer `cleanJson`, the zod schemas `AnalysisSchema` /
  `RewriteSchema`, the retry loop `executeLlmRequest`, input validation,
  the legacy adapter `analyzeText`, and the temperature selection of
  `humanize` / `smartHumanize` / `rewriteToOriginal`.
* the direct `PlagiarismService` of src/services/geminiService.ts
  (its mode-to-temperature rule).

JavaScript strings are modelled as `String` / `List Char` (whitespace is
modelled as the ASCII part of the regex class `\s`), JavaScript numbers as
`ℚ` (all constants occurring in the embedded code are decimal fractions,
so `ℚ` represents them exactly), thrown errors as `Except.error` carrying
the message string, and the chat-completion backend together with
`JSON.parse` as oracle functions supplied per call.
-/

namespace VireScan

/-- ASCII whitespace, modelling the characters that both the regex class
`\s` and `String.prototype.trim` treat as whitespace in the embedded code
(space, tab, line feed, vertical tab, form feed, carriage return). -/
def isWs (c : Char) : Bool :=
  c = ' ' || c = '\t' || c = '\n' || c = '\x0b' || c = '\x0c' || c = '\r'

/-- The characters of the opening Markdown fence `"```json"`. -/
def openFence : List Char := "```json".toList

/-- The characters of the closing Markdown fence `"```"`. -/
def closeFence : List Char := "```".toList

/-- Embedding of `str.replace(/^```json\s*/, "")`: when the string starts
with the opening fence, drop it together with the whitespace that follows. -/
def rmOpenFence (l : List Char) : List Char :=
  if l.take 7 = openFence then (l.drop 7).dropWhile isWs else l

/-- Drop trailing whitespace. -/
def dropTrailWs (l : List Char) : List Char :=
  (l.reverse.dropWhile isWs).reverse

/-- Embedding of `str.replace(/\s*```$/, "")`: when the string ends with
the closing fence, drop the fence and the whitespace before it. -/
def rmCloseFence (l : List Char) : List Char :=
  if closeFence.isSuffixOf l then dropTrailWs (l.take (l.length - 3)) else l

/-- Lookahead used by the trailing-comma regex: split `l` as whitespace
followed by a closing bracket or brace followed by the rest. -/
def wsBracketSplit (l : List Char) : Option (List Char × Char × List Char) :=
  let ws := l.takeWhile isWs
  match l.dropWhile isWs with
  | b :: tail => if b = '}' || b = ']' then some (ws, b, tail) else none
  | [] => none

/-- Worker for `rmCommas`; `fuel` is an upper bound on the length of the
list, so the top-level call never hits the `0` case on a nonempty list.
After a replacement the scan continues behind the kept bracket, exactly
like a global-flag regex replacement does. -/
def rmCommasGo : Nat → List Char → List Char
  | 0, l => l
  | _ + 1, [] => []
  | fuel + 1, c :: rest =>
    if c = ',' then
      match wsBracketSplit rest with
      | some (ws, b, tail) => ws ++ b :: rmCommasGo fuel tail
      | none => ',' :: rmCommasGo fuel rest
    else c :: rmCommasGo fuel rest

/-- Embedding of `str.replace(/,(\s*[}\]])/g, "$1")`: remove every comma
standing (up to whitespace) before a closing bracket or brace, scanning
left to right without revisiting replaced text. -/
def rmCommas (l : List Char) : List Char := rmCommasGo l.length l

/-- Embedding of `String.prototype.trim`. -/
def trim (l : List Char) : List Char := dropTrailWs (l.dropWhile isWs)

/-- The sanitizer `TextIntelligenceService.cleanJson` of src/unnamed/part_001
(lines 331–333): strip an opening and a closing Markdown fence, remove
trailing commas before closing brackets, and trim. -/
def cleanJsonList (l : List Char) : List Char :=
  trim (rmCommas (rmCloseFence (rmOpenFence l)))

/-- String-level wrapper of `cleanJsonList`; this is the function the
service applies to every raw backend payload before `JSON.parse`. -/
def cleanJson (s : String) : String := ⟨cleanJsonList s.data⟩

example : cleanJson ",,]" = ",]" := by decide
example : cleanJson ",]" = "]" := by decide
example : cleanJson "```json [1,2,] ```" = "[1,2]" := by decide

/-- The issue-category enum `IssueType` of src/unnamed/part_001 (lines 20–28). -/
inductive IssueType
  | AI_PATTERN
  | REPETITION
  | CLICHE
  | LOGIC_FLAW
  | GRAMMAR
  | SPELLING
  | READABILITY
deriving DecidableEq

/-- Recognition of the enum's string values; `none` models a string the
`z.enum` would reject. -/
def IssueType.fromString : String → Option IssueType
  | "AI_PATTERN" => some .AI_PATTERN
  | "REPETITION" => some .REPETITION
  | "CLICHE" => some .CLICHE
  | "LOGIC_FLAW" => some .LOGIC_FLAW
  | "GRAMMAR" => some .GRAMMAR
  | "SPELLING" => some .SPELLING
  | "READABILITY" => some .READABILITY
  | _ => none

/-- The runtime string value of an `IssueType` member (zod enum values are
their own names). -/
def IssueType.str : IssueType → String
  | .AI_PATTERN => "AI_PATTERN"
  | .REPETITION => "REPETITION"
  | .CLICHE => "CLICHE"
  | .LOGIC_FLAW => "LOGIC_FLAW"
  | .GRAMMAR => "GRAMMAR"
  | .SPELLING => "SPELLING"
  | .READABILITY => "READABILITY"

/-- A flag object as it appears in the parsed backend JSON, before schema
validation: the issue tag is still a free-form string. -/
structure RawFlag where
  text : String
  issue : String
  fix : String
deriving DecidableEq

/-- The `writingQuality` object of the parsed backend JSON.
`academicTone` and `emotionalResonance` are declared `.optional()` in the
schema, so they may be absent (`none`). None of the four numbers carries a
`.min`/`.max` bound in the schema. -/
structure RawWritingQuality where
  sentenceVariance : ℚ
  academicTone : Option ℚ
  grammar : ℚ
  emotionalResonance : Option ℚ
deriving DecidableEq

/-- The parsed backend JSON for an analysis response, before validation by
`AnalysisSchema`. `originalityScore` is not a field of the schema; we keep
the one extra key the backend is prompted about so that theorems can state
that `z.object` strips it (unknown keys are discarded by zod). -/
structure RawAnalysis where
  similarityScore : ℚ
  aiProbability : ℚ
  readabilityScore : ℚ
  writingQuality : RawWritingQuality
  flags : List RawFlag
  strategicAdvice : String
  originalityScore : Option ℚ
deriving DecidableEq

/-- Validated `writingQuality`, after `AnalysisSchema` applied the default
`50` for a missing `emotionalResonance`. -/
structure WritingQuality where
  sentenceVariance : ℚ
  academicTone : Option ℚ
  grammar : ℚ
  emotionalResonance : ℚ
deriving DecidableEq

/-- A validated flag: the issue tag has been forced into the enum. -/
structure AnalysisFlag where
  text : String
  issue : IssueType
  fix : String
deriving DecidableEq

/-- Type NewAnalysisResult, i.e. `z.infer<typeof AnalysisSchema>`, of src/unnamed/part_001. -/
structure NewAnalysisResult where
  similarityScore : ℚ
  aiProbability : ℚ
  readabilityScore : ℚ
  writingQuality : WritingQuality
  flags : List AnalysisFlag
  strategicAdvice : String
deriving DecidableEq

/-- The inclusive range `z.number().min(0).max(100)` declares. -/
def scoreInRange (q : ℚ) : Prop := 0 ≤ q ∧ q ≤ 100

instance (q : ℚ) : Decidable (scoreInRange q) := by
  unfold scoreInRange; infer_instance

/-- The value `AnalysisSchema.parse` builds on success: top-level scores are
copied, `emotionalResonance` defaults to `50` when absent, and each flag's
issue string is parsed by the enum with `.catch("AI_PATTERN")`, so an
unrecognized tag becomes `AI_PATTERN` instead of failing. -/
def analysisValue (r : RawAnalysis) : NewAnalysisResult :=
  { similarityScore := r.similarityScore
    aiProbability := r.aiProbability
    readabilityScore := r.readabilityScore
    writingQuality :=
      { sentenceVariance := r.writingQuality.sentenceVariance
        academicTone := r.writingQuality.academicTone
        grammar := r.writingQuality.grammar
        emotionalResonance := r.writingQuality.emotionalResonance.getD 50 }
    flags := r.flags.map fun f =>
      { text := f.text
        issue := (IssueType.fromString f.issue).getD .AI_PATTERN
        fix := f.fix }
    strategicAdvice := r.strategicAdvice }

/-- Embedding of `AnalysisSchema.parse` (src/unnamed/part_001, lines 31–47):
the three top-level scores carry `.min(0).max(100)` and make validation
fail when out of range; the `writingQuality` numbers and the rest are
accepted as they are, `originalityScore` is stripped as an unknown key. -/
def parseAnalysis (r : RawAnalysis) : Except String NewAnalysisResult :=
  if ¬ scoreInRange r.similarityScore then .error "AnalysisSchema: similarityScore out of range"
  else if ¬ scoreInRange r.aiProbability then .error "AnalysisSchema: aiProbability out of range"
  else if ¬ scoreInRange r.readabilityScore then .error "AnalysisSchema: readabilityScore out of range"
  else .ok (analysisValue r)

/-- The `stats` object of `RewriteSchema` (src/unnamed/part_001, lines
49–57): plain `z.number()` fields, no range bounds. -/
structure RawRewriteStats where
  originalAiScore : ℚ
  predictedNewAiScore : ℚ
  complexityScore : ℚ
deriving DecidableEq

/-- Type NewRewriteResult, i.e. `z.infer<typeof RewriteSchema>`. -/
structure NewRewriteResult where
  humanizedText : String
  stats : RawRewriteStats
  changesMade : List String
deriving DecidableEq

/-- Embedding of `RewriteSchema.parse`: no numeric field of the rewrite
schema declares a range, so shape-correct input always validates. -/
def parseRewrite (r : NewRewriteResult) : Except String NewRewriteResult := .ok r

/-- One reply of the chat-completion backend, per attempt index:
`Except.error e` models a thrown request error (network failure and the
like), `Except.ok none` a response whose `choices[0]?.message?.content` is
missing or empty, `Except.ok (some s)` a delivered payload string. -/
abbrev BackendReply := Except String (Option String)

instance {ε α : Type} [DecidableEq ε] [DecidableEq α] : DecidableEq (Except ε α)
  | .error a, .error b =>
    if h : a = b then .isTrue (congrArg Except.error h)
    else .isFalse fun hh => h (Except.error.inj hh)
  | .error _, .ok _ => .isFalse fun hh => Except.noConfusion hh
  | .ok _, .error _ => .isFalse fun hh => Except.noConfusion hh
  | .ok a, .ok b =>
    if h : a = b then .isTrue (congrArg Except.ok h)
    else .isFalse fun hh => h (Except.ok.inj hh)

/-- What one call of `executeLlmRequest` produced, together with the
observable effects the testable properties talk about: how many backend
calls were issued and which backoff delays (in milliseconds) were waited
between consecutive attempts. -/
structure Trace (α : Type) where
  result : Except String α
  calls : Nat
  delays : List Nat
deriving DecidableEq

/-- Constant `MAX_RETRIES` of `TextIntelligenceService` (src/unnamed/part_001, line 69). -/
def MAX_RETRIES : Nat := 3

/-- The body of one attempt of `executeLlmRequest` (src/unnamed/part_001,
lines 308–320): issue the backend call, fail on a missing payload with
"Empty response from LLM", otherwise sanitize with `cleanJson` and run the
caller's decode-and-validate stage (`JSON.parse` followed by
`schema.parse`). -/
def attemptOnce (backend : Nat → BackendReply)
    (decodeValidate : String → Except String α) (i : Nat) : Except String α :=
  match backend i with
  | .error e => .error e
  | .ok none => .error "Empty response from LLM"
  | .ok (some raw) => decodeValidate (cleanJson raw)

/-- The terminal error message of src/unnamed/part_001, line 328:
`LLM Failed after ${this.MAX_RETRIES} attempts: ${lastErr}`. -/
def exhaustMsg (lastErr : String) : String :=
  "LLM Failed after " ++ toString MAX_RETRIES ++ " attempts: " ++ lastErr

/-- The retry loop of `executeLlmRequest` (src/unnamed/part_001, lines
307–328): `fuel` is the number of attempts left, `i` the current attempt
index, `lastErr` the error of the previous attempt. A failed attempt waits
`1000 * 2^i` milliseconds before the next one, except after the last
attempt; once the budget is spent the loop throws `exhaustMsg lastErr`. -/
def execStep (attempt : Nat → Except String α) : Nat → Nat → String → Trace α
  | 0, _, lastErr => { result := .error (exhaustMsg lastErr), calls := 0, delays := [] }
  | fuel + 1, i, _ =>
    match attempt i with
    | .ok v => { result := .ok v, calls := 1, delays := [] }
    | .error e =>
      let rest := execStep attempt fuel (i + 1) e
      if fuel = 0 then
        { result := rest.result, calls := rest.calls + 1, delays := rest.delays }
      else
        { result := rest.result, calls := rest.calls + 1, delays := 1000 * 2 ^ i :: rest.delays }

/-- Embedding of `TextIntelligenceService.executeLlmRequest` (src/unnamed/part_001,
lines 303–329), with the backend and the `JSON.parse`-plus-`schema.parse`
stage passed in as oracles. -/
def executeLlmRequest (backend : Nat → BackendReply)
    (decodeValidate : String → Except String α) : Trace α :=
  execStep (attemptOnce backend decodeValidate) MAX_RETRIES 0 ""

/-- Embedding of `TextIntelligenceService.validateInput` (src/unnamed/part_001, lines
349–351): `if (!text || text.trim().length < 10) throw new Error("Text too
short")`. The only falsy string in JavaScript is the empty one. -/
def validateInput (text : String) : Except String Unit :=
  if text = "" ∨ (trim text.data).length < 10 then .error "Text too short" else .ok ()

/-- Embedding of `TextIntelligenceService.analyze` (src/unnamed/part_001, lines 76–106):
validate the input, then run the executor with `AnalysisSchema` at
temperature 0.2. `decode` is the `JSON.parse` oracle producing the
shape-typed raw object from the sanitized payload. A validation failure
rejects before any backend call is issued. -/
def TextIntelligenceService.analyze (backend : Nat → BackendReply)
    (decode : String → Except String RawAnalysis) (text : String) :
    Trace NewAnalysisResult :=
  match validateInput text with
  | .error e => { result := .error e, calls := 0, delays := [] }
  | .ok () => executeLlmRequest backend fun s => (decode s).bind parseAnalysis

/-- Interface `PlagiarismSource` of src/types.ts. -/
structure PlagiarismSource where
  title : String
  uri : String
deriving DecidableEq

/-- Interface `PlagiarismHighlight` of src/types.ts. -/
structure PlagiarismHighlight where
  text : String
  sourceUrl : String
  confidence : ℚ
deriving DecidableEq

/-- Interface `WritingIssueCounts` of src/types.ts (the adapter assigns numbers to
every field except the boolean `plagiarism`). -/
structure WritingIssueCounts where
  plagiarism : Bool
  spelling : ℚ
  conciseness : ℚ
  wordChoice : ℚ
  grammar : ℚ
  punctuation : ℚ
  readability : ℚ
  additional : ℚ
deriving DecidableEq

/-- The `writingFeedback` object of `AnalysisResult` (src/types.ts). -/
structure WritingFeedback where
  grammar : List String
  tone : String
  readability : String
  aiMarkers : List String
deriving DecidableEq

/-- Interface `AnalysisResult` of src/types.ts, the stable legacy shape returned to
`App.tsx`. -/
structure LegacyAnalysisResult where
  similarityScore : ℚ
  originalityScore : ℚ
  aiScore : ℚ
  wordCount : Nat
  sources : List PlagiarismSource
  highlights : List PlagiarismHighlight
  writingFeedback : WritingFeedback
  writingScores : WritingIssueCounts
  summary : String
deriving DecidableEq

/-- Worker for `countTokens`: count the maximal runs of non-whitespace
characters; the flag records whether the scan is inside such a run. -/
def countTokensGo : Bool → List Char → Nat
  | _, [] => 0
  | inWord, c :: rest =>
    if isWs c then countTokensGo false rest
    else (if inWord then 0 else 1) + countTokensGo true rest

/-- Number of whitespace-separated tokens of a character list. -/
def countTokens (l : List Char) : Nat := countTokensGo false l

/-- Embedding of `text.trim().split(/\s+/).length` (src/unnamed/part_001,
line 371): splitting the empty string yields `[""]` of length 1 in
JavaScript; otherwise the length is the number of tokens. -/
def wordCount (text : String) : Nat :=
  if trim text.data = [] then 1 else countTokens (trim text.data)

/-- Embedding of `PlagiarismService.analyzeText`'s adaptation of a validated engine
result to the legacy shape (src/unnamed/part_001, lines 373–403), field by
field: originality is recomputed as `100 - similarityScore`, the boolean
plagiarism flag is derived as `similarityScore > 15`, readability is the
backend's `readabilityScore` passed through, `conciseness` is the constant
80 and every highlight confidence the constant 100. -/
def PlagiarismService.adaptAnalysis (text : String) (raw : NewAnalysisResult) :
    LegacyAnalysisResult :=
  { similarityScore := raw.similarityScore
    originalityScore := 100 - raw.similarityScore
    aiScore := raw.aiProbability
    wordCount := wordCount text
    sources := []
    highlights := raw.flags.map fun f =>
      { text := f.text, sourceUrl := f.issue.str, confidence := 100 }
    writingFeedback :=
      { grammar := (raw.flags.filter fun f => f.issue = .GRAMMAR).map
          fun f => f.text ++ ": " ++ f.fix
        tone := "Analyzed"
        readability := toString raw.readabilityScore ++ "/100"
        aiMarkers := (raw.flags.filter fun f => f.issue = .AI_PATTERN).map fun f => f.text }
    writingScores :=
      { plagiarism := decide (raw.similarityScore > 15)
        spelling := raw.writingQuality.grammar
        conciseness := 80
        wordChoice := raw.writingQuality.sentenceVariance
        grammar := raw.writingQuality.grammar
        punctuation := raw.writingQuality.grammar
        readability := raw.readabilityScore
        additional := raw.writingQuality.emotionalResonance }
    summary := raw.strategicAdvice }

/-- Embedding of `PlagiarismService.analyzeText` (src/unnamed/part_001, lines 369–403):
run the engine's `analyze` and adapt a successful result to the legacy
shape; failures propagate unchanged. -/
def PlagiarismService.analyzeText (backend : Nat → BackendReply)
    (decode : String → Except String RawAnalysis) (text : String) :
    Trace LegacyAnalysisResult :=
  let t := TextIntelligenceService.analyze backend decode text
  { result := t.result.map (PlagiarismService.adaptAnalysis text)
    calls := t.calls
    delays := t.delays }

/-- The `HumanizationMode` enum of the new engine (src/unnamed/part_001,
lines 13–18). The surrounding code also reads `HumanizationMode.NUCLEAR`,
which is not a member of this enum: at runtime that property access yields
`undefined`, which we model as `none` in `Option NewMode`. -/
inductive NewMode
  | ACADEMIC
  | ANTI_GRAMMARLY
  | STORYTELLER
  | NATURAL
deriving DecidableEq

/-- The temperature chosen by `TextIntelligenceService.humanize`
(src/unnamed/part_001, lines 114–119):
`isNuclear ? 1.0 : (mode === HumanizationMode.ACADEMIC ? 0.7 : 0.9)` where
`isNuclear` compares the mode with the undefined `HumanizationMode.NUCLEAR`. -/
def humanizeTemp (mode : Option NewMode) : ℚ :=
  if mode = none then 1 else if mode = some .ACADEMIC then 0.7 else 0.9

/-- The mode `TextIntelligenceService.smartHumanize` selects from the
preliminary analysis (src/unnamed/part_001, lines 180–188): aiProbability
above 80 picks `HumanizationMode.NUCLEAR` (`undefined`, hence `none`),
above 40 picks ACADEMIC, otherwise NATURAL. -/
def smartHumanizeMode (aiProbability : ℚ) : Option NewMode :=
  if 80 < aiProbability then none
  else if 40 < aiProbability then some .ACADEMIC
  else some .NATURAL

/-- Enum `HumanizationMode` of src/types.ts (the legacy mode set). -/
inductive LegacyMode
  | NATURAL
  | ACADEMIC
  | AGGRESSIVE
  | CREATIVE
deriving DecidableEq

/-- The legacy-to-new mode mapping of `PlagiarismService.rewriteToOriginal`
for the non-AGGRESSIVE path (src/unnamed/part_001, lines 421–423): default
NATURAL, ACADEMIC stays ACADEMIC, the legacy CREATIVE value `"Creative"`
becomes STORYTELLER. -/
def legacyToNewMode : LegacyMode → NewMode
  | .ACADEMIC => .ACADEMIC
  | .CREATIVE => .STORYTELLER
  | _ => .NATURAL

/-- The temperature of the completion request that actually rewrites the
text when `PlagiarismService.rewriteToOriginal` (src/unnamed/part_001,
lines 405–425) is invoked with the given legacy mode: AGGRESSIVE routes
through `smartHumanize`, whose mode — and therefore temperature — depends
on the aiProbability reported by the preliminary `analyze` call; every
other mode is mapped directly and handed to `humanize`. -/
def rewriteRequestTemp (mode : LegacyMode) (analysisAiProbability : ℚ) : ℚ :=
  match mode with
  | .AGGRESSIVE => humanizeTemp (smartHumanizeMode analysisAiProbability)
  | m => humanizeTemp (some (legacyToNewMode m))

/-- The mode-to-temperature rule of the direct
`PlagiarismService.rewriteToOriginal` in src/services/geminiService.ts,
lines 180–181: AGGRESSIVE and CREATIVE use 1.0, everything else 0.7. -/
def gsRewriteTemp (mode : LegacyMode) : ℚ :=
  if mode = .AGGRESSIVE ∨ mode = .CREATIVE then 1 else 0.7

/-- Worker for `tokensList`: split a character list at whitespace,
accumulating the current token in reverse. -/
def tokensGo : List Char → List Char → List (List Char)
  | acc, [] => if acc = [] then [] else [acc.reverse]
  | acc, c :: rest =>
    if isWs c then
      if acc = [] then tokensGo [] rest else acc.reverse :: tokensGo [] rest
    else tokensGo (c :: acc) rest

/-- The whitespace-separated tokens of a character list. -/
def tokensList (l : List Char) : List (List Char) := tokensGo [] l

/-- Vowels of the vowel-cluster syllable heuristic. -/
def isVowel (c : Char) : Bool :=
  let d := c.toLower
  d = 'a' || d = 'e' || d = 'i' || d = 'o' || d = 'u'

/-- Count maximal vowel runs; the flag records whether the previous
character was a vowel. -/
def vowelClustersGo : Bool → List Char → Nat
  | _, [] => 0
  | inV, c :: rest =>
    if isVowel c then (if inV then 0 else 1) + vowelClustersGo true rest
    else vowelClustersGo false rest

/-- Modelled from the spec: the per-word "heuristic vowel-cluster
approximation" of the syllable count (§4.5); every word counts at least
one syllable. No implementation of this exists under src/. -/
def wordSyllables (w : List Char) : Nat := max 1 (vowelClustersGo false w)

/-- Modelled from the spec: total syllable count of a text, summing the
vowel-cluster heuristic over its words. -/
def countSyllables (text : String) : Nat :=
  ((tokensList (trim text.data)).map wordSyllables).sum

/-- Modelled from the spec: the sentence count of §4.5, "terminal
punctuation splits (treating zero sentences as one to avoid division by
zero)". -/
def countSentences (text : String) : Nat :=
  max 1 (text.data.filter fun c => c = '.' || c = '!' || c = '?').length

/-- Clamp a score to the interval [0, 100]. -/
def clampScore (q : ℚ) : ℚ := if q < 0 then 0 else if 100 < q then 100 else q

/-- Modelled from the spec: the deterministic Flesch–Kincaid reading-ease
override of §4.5,
`score = 206.835 − 1.015*(words/sentences) − 84.6*(syllables/words)`,
clamped to [0, 100]. The spec (and the unit test in
src/services/geminiService.test.ts, lines 63–67) require `analyzeText` to
overwrite the backend's readability with this value; no such computation
exists anywhere under src/. -/
def fleschKincaid (text : String) : ℚ :=
  let w : ℚ := countTokens (trim text.data)
  let s : ℚ := countSentences text
  let syl : ℚ := countSyllables text
  clampScore (206.835 - 1.015 * (w / s) - 84.6 * (syl / w))

/-! Helper lemmas shared by the claim theorems. -/

theorem dropWhile_idem {α : Type} (p : α → Bool) :
    ∀ l : List α, (l.dropWhile p).dropWhile p = l.dropWhile p
  | [] => rfl
  | c :: rest => by
    cases hc : p c with
    | true => simp [List.dropWhile_cons, hc, dropWhile_idem p rest]
    | false => simp [List.dropWhile_cons, hc]

theorem dropWhile_exists_append {α : Type} (p : α → Bool) :
    ∀ l : List α, ∃ s, l = s ++ l.dropWhile p
  | [] => ⟨[], rfl⟩
  | c :: rest => by
    cases hc : p c with
    | true =>
      obtain ⟨s, hs⟩ := dropWhile_exists_append p rest
      exact ⟨c :: s, by simp [List.dropWhile_cons, hc]; exact hs⟩
    | false => exact ⟨[], by simp [List.dropWhile_cons, hc]⟩

theorem dropWhile_length_le {α : Type} (p : α → Bool) :
    ∀ l : List α, (l.dropWhile p).length ≤ l.length
  | [] => le_refl _
  | c :: rest => by
    cases hc : p c with
    | true =>
      simp only [List.dropWhile_cons, hc, if_true, List.length_cons]
      exact le_trans (dropWhile_length_le p rest) (Nat.le_succ _)
    | false => simp [List.dropWhile_cons, hc]

theorem dropTrailWs_of_headClean {l : List Char} (h : l.dropWhile isWs = l) :
    (dropTrailWs l).dropWhile isWs = dropTrailWs l := by
  obtain ⟨s, hs⟩ := dropWhile_exists_append isWs l.reverse
  have ht : l = dropTrailWs l ++ s.reverse := by
    conv_lhs => rw [← l.reverse_reverse, hs]
    simp [dropTrailWs]
  cases hD : dropTrailWs l with
  | nil => simp [List.dropWhile]
  | cons c cs =>
    have hl : l = c :: (cs ++ s.reverse) := by rw [ht, hD]; rfl
    have hc : isWs c = false := by
      cases hcc : isWs c with
      | false => rfl
      | true =>
        rw [hl, List.dropWhile_cons, hcc, if_pos rfl] at h
        have hle := dropWhile_length_le isWs (cs ++ s.reverse)
        have hlen := congrArg List.length h
        simp only [List.length_cons] at hlen
        omega
    simp [List.dropWhile_cons, hc]

theorem dropTrailWs_idem (l : List Char) :
    dropTrailWs (dropTrailWs l) = dropTrailWs l := by
  simp [dropTrailWs, dropWhile_idem]

theorem trim_idem (l : List Char) : trim (trim l) = trim l := by
  unfold trim
  rw [dropTrailWs_of_headClean (dropWhile_idem isWs l), dropTrailWs_idem]

/-- C6 counterexample: the sanitizer is not idempotent. On `",,]"` the
single left-to-right pass of the trailing-comma removal deletes only the
second comma (the scan does not revisit replaced text), producing `",]"`,
which a second application shortens further to `"]"`. -/
theorem C6_counterexample : cleanJson (cleanJson ",,]") ≠ cleanJson ",,]" := by
  decide

/-- C6 amended: `cleanJson` is idempotent at every input on which its
output is a fixed point of each of the three replacement passes — it does
not start with an opening fence, does not end with a closing fence, and
contains no remaining trailing comma before a closing bracket or brace.
(The final `trim` never obstructs idempotence: trimming is idempotent.)
Full idempotence fails, see the counterexample. -/
theorem C6_amended (s : String)
    (h1 : rmOpenFence (cleanJson s).data = (cleanJson s).data)
    (h2 : rmCloseFence (cleanJson s).data = (cleanJson s).data)
    (h3 : rmCommas (cleanJson s).data = (cleanJson s).data) :
    cleanJson (cleanJson s) = cleanJson s := by
  have hfix : cleanJsonList (cleanJson s).data = (cleanJson s).data := by
    unfold cleanJsonList
    rw [h1, h2, h3]
    show trim (cleanJsonList s.data) = cleanJsonList s.data
    unfold cleanJsonList
    exact trim_idem _
  calc cleanJson (cleanJson s) = ⟨cleanJsonList (cleanJson s).data⟩ := rfl
    _ = ⟨(cleanJson s).data⟩ := by rw [hfix]
    _ = cleanJson s := rfl

/-- C6 witness: a fenced payload with one trailing comma is cleaned to
`"[1,2]"`, on which the sanitizer is a fixed point. -/
theorem C6_witness :
    cleanJson (cleanJson "```json [1,2,] ```") = cleanJson "```json [1,2,] ```" :=
  C6_amended "```json [1,2,] ```" (by decide) (by decide) (by decide)

theorem execStep_result_ok {α : Type} (atp : Nat → Except String α) :
    ∀ (fuel i : Nat) (last : String) (a : α),
      (execStep atp fuel i last).result = .ok a → ∃ j, atp j = .ok a := by
  intro fuel
  induction fuel with
  | zero => intro i last a h; simp [execStep] at h
  | succ n ih =>
    intro i last a h
    simp only [execStep] at h
    cases hA : atp i with
    | ok v =>
      rw [hA] at h
      simp only at h
      exact ⟨i, by rw [hA, h]⟩
    | error e =>
      rw [hA] at h
      have h' : (execStep atp n (i + 1) e).result = .ok a := by
        by_cases hn : n = 0
        · subst hn; simp only [if_true, reduceIte] at h; exact h
        · simp only [hn, reduceIte, if_false] at h; exact h
      exact ih (i + 1) e a h'

/-- C4: a backend whose three attempts all fail (for any mix of network
errors, empty payloads, parse failures or schema failures, all of which
surface as a failing `attemptOnce`) makes `executeLlmRequest` reject with
the single terminal message wrapping the last underlying error, after
exactly 3 calls and the two backoff waits; it never resolves with any
value. -/
theorem C4_exhausted_retries {α : Type} (backend : Nat → BackendReply)
    (dv : String → Except String α) (e0 e1 e2 : String)
    (h0 : attemptOnce backend dv 0 = .error e0)
    (h1 : attemptOnce backend dv 1 = .error e1)
    (h2 : attemptOnce backend dv 2 = .error e2) :
    executeLlmRequest backend dv =
      { result := .error (exhaustMsg e2), calls := 3, delays := [1000 * 2 ^ 0, 1000 * 2 ^ 1] } ∧
    ∀ v : α, (executeLlmRequest backend dv).result ≠ .ok v := by
  have hmain : executeLlmRequest backend dv =
      { result := .error (exhaustMsg e2), calls := 3, delays := [1000 * 2 ^ 0, 1000 * 2 ^ 1] } := by
    simp [executeLlmRequest, MAX_RETRIES, execStep, h0, h1, h2]
  exact ⟨hmain, fun v hv => by rw [hmain] at hv; exact Except.noConfusion hv⟩

/-- The all-failing backend used to witness the exhausted-retries claim. -/
def failBackend : Nat → BackendReply := fun _ => .error "network down"

/-- A decode stage for the witnesses; it is never reached when the backend
itself fails. -/
def failDecode : String → Except String RawAnalysis := fun _ => .error "not JSON"

theorem C4_witness :
    executeLlmRequest failBackend failDecode =
      { result := .error (exhaustMsg "network down"), calls := 3,
        delays := [1000 * 2 ^ 0, 1000 * 2 ^ 1] } ∧
    ∀ v : RawAnalysis, (executeLlmRequest failBackend failDecode).result ≠ .ok v :=
  C4_exhausted_retries failBackend failDecode "network down" "network down" "network down"
    rfl rfl rfl

/-- C5: a backend failing on the first two attempts and succeeding on the
third makes `executeLlmRequest` return the validated result after exactly
3 calls, with the two backoff delays of the form `base * 2 ^ attempt` for
the base delay 1000 ms (inside the specified 500–1000 ms band) — hence
strictly increasing. -/
theorem C5_fail_fail_succeed {α : Type} (backend : Nat → BackendReply)
    (dv : String → Except String α) (e0 e1 : String) (v : α)
    (h0 : attemptOnce backend dv 0 = .error e0)
    (h1 : attemptOnce backend dv 1 = .error e1)
    (h2 : attemptOnce backend dv 2 = .ok v) :
    executeLlmRequest backend dv =
      { result := .ok v, calls := 3, delays := [1000 * 2 ^ 0, 1000 * 2 ^ 1] } ∧
    500 ≤ 1000 ∧ (1000 : Nat) ≤ 1000 ∧ 1000 * 2 ^ 0 < 1000 * 2 ^ 1 := by
  refine ⟨?_, by norm_num, by norm_num, by norm_num⟩
  simp [executeLlmRequest, MAX_RETRIES, execStep, h0, h1, h2]

/-- A backend for the retry witness: down on the first two attempts, up on
the third. -/
def flakyBackend : Nat → BackendReply :=
  fun i => if i < 2 then .error "down" else .ok (some "payload")

/-- A decode stage accepting any sanitized payload, for the retry witness. -/
def okNatDecode : String → Except String Nat := fun _ => .ok 7

theorem C5_witness :
    executeLlmRequest flakyBackend okNatDecode =
      { result := .ok 7, calls := 3, delays := [1000 * 2 ^ 0, 1000 * 2 ^ 1] } ∧
    500 ≤ 1000 ∧ (1000 : Nat) ≤ 1000 ∧ 1000 * 2 ^ 0 < 1000 * 2 ^ 1 :=
  C5_fail_fail_succeed flakyBackend okNatDecode "down" "down" 7 rfl rfl rfl

theorem parseAnalysis_eq_ok {r : RawAnalysis} {a : NewAnalysisResult}
    (h : parseAnalysis r = .ok a) :
    scoreInRange r.similarityScore ∧ scoreInRange r.aiProbability ∧
    scoreInRange r.readabilityScore ∧ a = analysisValue r := by
  unfold parseAnalysis at h
  by_cases hs : scoreInRange r.similarityScore
  · by_cases ha : scoreInRange r.aiProbability
    · by_cases hr : scoreInRange r.readabilityScore
      · rw [if_neg (not_not_intro hs), if_neg (not_not_intro ha),
          if_neg (not_not_intro hr)] at h
        exact ⟨hs, ha, hr, (Except.ok.inj h).symm⟩
      · rw [if_neg (not_not_intro hs), if_neg (not_not_intro ha), if_pos hr] at h
        exact Except.noConfusion h
    · rw [if_neg (not_not_intro hs), if_pos ha] at h
      exact Except.noConfusion h
  · rw [if_pos hs] at h
    exact Except.noConfusion h

theorem except_map_eq_ok {α β : Type} {f : α → β} {t : Except String α} {b : β}
    (h : t.map f = .ok b) : ∃ a, t = .ok a ∧ b = f a := by
  cases t with
  | error e => exact Except.noConfusion h
  | ok a => exact ⟨a, rfl, (Except.ok.inj h).symm⟩

theorem except_bind_eq_ok {α β : Type} {g : α → Except String β}
    {t : Except String α} {b : β} (h : t.bind g = .ok b) :
    ∃ a, t = .ok a ∧ g a = .ok b := by
  cases t with
  | error e => exact Except.noConfusion h
  | ok a => exact ⟨a, rfl, h⟩

theorem analyze_result_ok {backend : Nat → BackendReply}
    {decode : String → Except String RawAnalysis} {text : String}
    {a : NewAnalysisResult}
    (h : (TextIntelligenceService.analyze backend decode text).result = .ok a) :
    ∃ raw : RawAnalysis, parseAnalysis raw = .ok a := by
  unfold TextIntelligenceService.analyze at h
  cases hv : validateInput text with
  | error e => rw [hv] at h; exact Except.noConfusion h
  | ok u =>
    rw [hv] at h
    simp only at h
    obtain ⟨j, hj⟩ := execStep_result_ok _ _ _ _ _ h
    unfold attemptOnce at hj
    cases hb : backend j with
    | error e => rw [hb] at hj; exact Except.noConfusion hj
    | ok payload =>
      rw [hb] at hj
      cases payload with
      | none => exact Except.noConfusion hj
      | some s =>
        simp only at hj
        obtain ⟨raw, _, hraw⟩ := except_bind_eq_ok hj
        exact ⟨raw, hraw⟩

theorem analyzeText_result_ok {backend : Nat → BackendReply}
    {decode : String → Except String RawAnalysis} {text : String}
    {r : LegacyAnalysisResult}
    (h : (PlagiarismService.analyzeText backend decode text).result = .ok r) :
    ∃ raw : RawAnalysis,
      scoreInRange raw.similarityScore ∧ scoreInRange raw.aiProbability ∧
      scoreInRange raw.readabilityScore ∧
      r = PlagiarismService.adaptAnalysis text (analysisValue raw) := by
  unfold PlagiarismService.analyzeText at h
  simp only at h
  obtain ⟨a, ha, hr⟩ := except_map_eq_ok h
  obtain ⟨raw, hraw⟩ := analyze_result_ok ha
  obtain ⟨h1, h2, h3, h4⟩ := parseAnalysis_eq_ok hraw
  exact ⟨raw, h1, h2, h3, by rw [hr, h4]⟩

/-- The input text of the unit test in src/services/geminiService.test.ts
(line 60), used as shared concrete input for several witnesses. -/
def exText : String := "This is a test sentence that fits the length requirement."

/-- A shape-valid backend analysis object: top-level scores in range, a
flag carrying the unrecognized issue tag "BANANA", optional fields absent,
and a (to-be-stripped) originalityScore differing from 100 − similarity. -/
def exRaw : RawAnalysis :=
  { similarityScore := 30
    aiProbability := 50
    readabilityScore := 60
    writingQuality :=
      { sentenceVariance := 70, academicTone := none, grammar := 85,
        emotionalResonance := none }
    flags := [{ text := "bad word", issue := "BANANA", fix := "good word" }]
    strategicAdvice := "advice"
    originalityScore := some 3 }

/-- A backend that answers the first attempt with a payload. -/
def exBackend : Nat → BackendReply := fun _ => .ok (some "payload")

/-- A `JSON.parse` oracle producing `exRaw` from the sanitized payload. -/
def exDecode : String → Except String RawAnalysis := fun _ => .ok exRaw

/-- The legacy result the adapter produces from `exRaw` on `exText`. -/
def exLegacy : LegacyAnalysisResult :=
  PlagiarismService.adaptAnalysis exText (analysisValue exRaw)

/-- C3: whenever `analyzeText` succeeds, the returned legacy result
satisfies `originalityScore = 100 − similarityScore` (the adapter
recomputes it from the validated similarity), and the backend's own
`originalityScore` field is stripped by the schema — validation is
entirely insensitive to it, so the value is never taken verbatim. -/
theorem C3_originality_recomputed (backend : Nat → BackendReply)
    (decode : String → Except String RawAnalysis) (text : String)
    (r : LegacyAnalysisResult)
    (h : (PlagiarismService.analyzeText backend decode text).result = .ok r) :
    r.originalityScore = 100 - r.similarityScore ∧
    ∀ (raw : RawAnalysis) (q : Option ℚ),
      parseAnalysis { raw with originalityScore := q } = parseAnalysis raw := by
  constructor
  · obtain ⟨raw, -, -, -, hr⟩ := analyzeText_result_ok h
    rw [hr]
    rfl
  · intro raw q
    rfl

theorem C3_witness :
    (PlagiarismService.analyzeText exBackend exDecode exText).result = .ok exLegacy ∧
    exLegacy.originalityScore = 100 - exLegacy.similarityScore :=
  ⟨rfl, (C3_originality_recomputed exBackend exDecode exText exLegacy rfl).1⟩

/-- C10: whenever `analyzeText` succeeds, the boolean
`writingScores.plagiarism` of the legacy result is true exactly when the
validated similarity score exceeds 15; the adapter derives it (line 392 of
src/unnamed/part_001) and the raw backend object has no such field to
supply. -/
theorem C10_plagiarism_threshold (backend : Nat → BackendReply)
    (decode : String → Except String RawAnalysis) (text : String)
    (r : LegacyAnalysisResult)
    (h : (PlagiarismService.analyzeText backend decode text).result = .ok r) :
    (r.writingScores.plagiarism = true ↔ 15 < r.similarityScore) := by
  obtain ⟨raw, -, -, -, hr⟩ := analyzeText_result_ok h
  rw [hr]
  show decide (15 < raw.similarityScore) = true ↔ 15 < raw.similarityScore
  exact decide_eq_true_iff

theorem C10_witness :
    (PlagiarismService.analyzeText exBackend exDecode exText).result = .ok exLegacy ∧
    (exLegacy.writingScores.plagiarism = true ↔ 15 < exLegacy.similarityScore) :=
  ⟨rfl, C10_plagiarism_threshold exBackend exDecode exText exLegacy rfl⟩

/-- A shape-valid backend analysis object whose unbounded
`writingQuality.sentenceVariance` is 150: the schema validates it because
only the three top-level scores carry `.min(0).max(100)`. -/
def c2Raw : RawAnalysis :=
  { similarityScore := 30
    aiProbability := 50
    readabilityScore := 60
    writingQuality :=
      { sentenceVariance := 150, academicTone := none, grammar := 85,
        emotionalResonance := some 40 }
    flags := []
    strategicAdvice := "advice"
    originalityScore := none }

/-- A `JSON.parse` oracle producing `c2Raw`. -/
def c2Decode : String → Except String RawAnalysis := fun _ => .ok c2Raw

/-- The legacy result the adapter produces from `c2Raw`. -/
def c2Legacy : LegacyAnalysisResult :=
  PlagiarismService.adaptAnalysis exText (analysisValue c2Raw)

/-- C2 counterexample: an analysis call that passes validation and is
returned to the caller carries `writingScores.wordChoice = 150` (copied
from the unvalidated `sentenceVariance`), which lies outside [0, 100]. -/
theorem C2_counterexample :
    (PlagiarismService.analyzeText exBackend c2Decode exText).result = .ok c2Legacy ∧
    c2Legacy.writingScores.wordChoice = 150 ∧
    ¬ c2Legacy.writingScores.wordChoice ≤ 100 := by
  refine ⟨rfl, rfl, ?_⟩
  show ¬ (150 : ℚ) ≤ 100
  norm_num

/-- C2 amended: the [0, 100] guarantee holds for the schema-validated
top-level scores and the fields the adapter derives from them —
similarity, AI score, the readability sub-score and the recomputed
originality — but not for the sub-scores copied from the unvalidated
`writingQuality` numbers (nor for the rewrite stats, whose schema has no
bounds either). -/
theorem C2_validated_scores_in_range (backend : Nat → BackendReply)
    (decode : String → Except String RawAnalysis) (text : String)
    (r : LegacyAnalysisResult)
    (h : (PlagiarismService.analyzeText backend decode text).result = .ok r) :
    (0 ≤ r.similarityScore ∧ r.similarityScore ≤ 100) ∧
    (0 ≤ r.aiScore ∧ r.aiScore ≤ 100) ∧
    (0 ≤ r.writingScores.readability ∧ r.writingScores.readability ≤ 100) ∧
    (0 ≤ r.originalityScore ∧ r.originalityScore ≤ 100) := by
  obtain ⟨raw, ⟨hs0, hs1⟩, ⟨ha0, ha1⟩, ⟨hr0, hr1⟩, hr⟩ := analyzeText_result_ok h
  subst hr
  refine ⟨⟨hs0, hs1⟩, ⟨ha0, ha1⟩, ⟨hr0, hr1⟩, ?_, ?_⟩
  · show (0 : ℚ) ≤ 100 - raw.similarityScore
    linarith
  · show (100 : ℚ) - raw.similarityScore ≤ 100
    linarith

theorem C2_witness :
    (0 ≤ c2Legacy.similarityScore ∧ c2Legacy.similarityScore ≤ 100) ∧
    (0 ≤ c2Legacy.aiScore ∧ c2Legacy.aiScore ≤ 100) ∧
    (0 ≤ c2Legacy.writingScores.readability ∧ c2Legacy.writingScores.readability ≤ 100) ∧
    (0 ≤ c2Legacy.originalityScore ∧ c2Legacy.originalityScore ≤ 100) :=
  C2_validated_scores_in_range exBackend c2Decode exText c2Legacy rfl

/-- C7: an empty input, or one shorter than 10 characters after trimming,
makes both the engine's `analyze` and the adapter's `analyzeText` reject
immediately with the validation error "Text too short", with a backend
call count of zero. -/
theorem C7_short_input_rejected (backend : Nat → BackendReply)
    (decode : String → Except String RawAnalysis) (text : String)
    (h : text = "" ∨ (trim text.data).length < 10) :
    TextIntelligenceService.analyze backend decode text =
      { result := .error "Text too short", calls := 0, delays := [] } ∧
    PlagiarismService.analyzeText backend decode text =
      { result := .error "Text too short", calls := 0, delays := [] } := by
  have hv : validateInput text = .error "Text too short" := by
    unfold validateInput
    rw [if_pos h]
  constructor
  · unfold TextIntelligenceService.analyze
    rw [hv]
  · unfold PlagiarismService.analyzeText TextIntelligenceService.analyze
    rw [hv]
    rfl

theorem C7_witness :
    TextIntelligenceService.analyze exBackend exDecode "" =
      { result := .error "Text too short", calls := 0, delays := [] } ∧
    PlagiarismService.analyzeText exBackend exDecode "x" =
      { result := .error "Text too short", calls := 0, delays := [] } :=
  ⟨(C7_short_input_rejected exBackend exDecode "" (by decide)).1,
   (C7_short_input_rejected exBackend exDecode "x" (by decide)).2⟩

/-- C8: a backend response that validates except for a flag whose issue
tag is outside the enum is not rejected: `.catch("AI_PATTERN")` coerces
the tag to the default category, the whole `analyze` call still succeeds
(here shown with a backend delivering that payload on the first attempt),
and the coerced flag is part of the returned result. -/
theorem C8_unknown_issue_coerced (raw : RawAnalysis) (f : RawFlag)
    (payload text : String)
    (hs : scoreInRange raw.similarityScore) (ha : scoreInRange raw.aiProbability)
    (hr : scoreInRange raw.readabilityScore)
    (hlen : ¬ (text = "" ∨ (trim text.data).length < 10))
    (hf : f ∈ raw.flags) (hu : IssueType.fromString f.issue = none) :
    (TextIntelligenceService.analyze (fun _ => .ok (some payload))
        (fun _ => .ok raw) text).result = .ok (analysisValue raw) ∧
    ({ text := f.text, issue := IssueType.AI_PATTERN, fix := f.fix } : AnalysisFlag) ∈
      (analysisValue raw).flags := by
  have hparse : parseAnalysis raw = .ok (analysisValue raw) := by
    unfold parseAnalysis
    rw [if_neg (not_not_intro hs), if_neg (not_not_intro ha), if_neg (not_not_intro hr)]
  constructor
  · unfold TextIntelligenceService.analyze validateInput
    rw [if_neg hlen]
    simp only [executeLlmRequest, MAX_RETRIES, execStep, attemptOnce, Except.bind, hparse]
  · have : ({ text := f.text, issue := IssueType.AI_PATTERN, fix := f.fix } : AnalysisFlag) =
        { text := f.text, issue := (IssueType.fromString f.issue).getD .AI_PATTERN,
          fix := f.fix } := by rw [hu]; rfl
    rw [this]
    exact List.mem_map_of_mem _ hf

theorem C8_witness :
    (TextIntelligenceService.analyze (fun _ => .ok (some "payload"))
        (fun _ => .ok exRaw) exText).result = .ok (analysisValue exRaw) ∧
    ({ text := "bad word", issue := IssueType.AI_PATTERN, fix := "good word" } : AnalysisFlag) ∈
      (analysisValue exRaw).flags :=
  C8_unknown_issue_coerced exRaw
    { text := "bad word", issue := "BANANA", fix := "good word" } "payload" exText
    (by decide) (by decide) (by decide) (by decide) (by decide) rfl

/-- C1 (exhibit of the code bug): on the unit test's own input and a
backend reporting `readabilityScore = 60`, the shipped adapter returns 60
verbatim in `writingScores.readability`, whereas the deterministic
Flesch–Kincaid score of that text is 69.785 — the value the spec and the
test (src/services/geminiService.test.ts, lines 63–67, "Readability should
NOT be the AI's 60, but calculated") demand. No Flesch–Kincaid computation
exists anywhere under src/, so the backend's readability estimate is
never discarded or overwritten. -/
theorem C1_readability_not_overwritten :
    (PlagiarismService.analyzeText exBackend exDecode exText).result = .ok exLegacy ∧
    exLegacy.writingScores.readability = 60 ∧
    fleschKincaid exText = 13957 / 200 ∧
    (13957 / 200 : ℚ) ≠ 60 := by
  refine ⟨rfl, rfl, ?_, by norm_num⟩
  show clampScore (206.835 - 1.015 * ((10 : ℚ) / (1 : ℚ)) - 84.6 * ((15 : ℚ) / (10 : ℚ)))
    = 13957 / 200
  norm_num [clampScore]

theorem humanizeTemp_eval_none : humanizeTemp none = 1 := by
  unfold humanizeTemp
  rw [if_pos rfl]

theorem humanizeTemp_eval_academic : humanizeTemp (some .ACADEMIC) = 0.7 := by
  unfold humanizeTemp
  rw [if_neg (by decide), if_pos rfl]

theorem humanizeTemp_eval_natural : humanizeTemp (some .NATURAL) = 0.9 := by
  unfold humanizeTemp
  rw [if_neg (by decide), if_neg (by decide)]

theorem gsRewriteTemp_eval_aggressive : gsRewriteTemp .AGGRESSIVE = 1 := by
  unfold gsRewriteTemp
  rw [if_pos (by decide)]

theorem gsRewriteTemp_eval_natural : gsRewriteTemp .NATURAL = 0.7 := by
  unfold gsRewriteTemp
  rw [if_neg (by decide)]

/-- C9 counterexample: when the preliminary analysis of the AGGRESSIVE
(smart-humanize) path reports aiProbability 50 — a perfectly valid
backend outcome — the rewrite request is issued at temperature 0.7, which
is lower, not strictly higher, than the 0.9 used for the same text in the
conservative NATURAL mode. -/
theorem C9_counterexample :
    ¬ rewriteRequestTemp .AGGRESSIVE 50 > rewriteRequestTemp .NATURAL 50 := by
  have e1 : rewriteRequestTemp .AGGRESSIVE 50 = 0.7 := by
    show humanizeTemp (smartHumanizeMode 50) = 0.7
    have hm : smartHumanizeMode 50 = some .ACADEMIC := by
      unfold smartHumanizeMode
      rw [if_neg (by norm_num), if_pos (by norm_num)]
    rw [hm]
    exact humanizeTemp_eval_academic
  have e2 : rewriteRequestTemp .NATURAL 50 = 0.9 := humanizeTemp_eval_natural
  rw [e1, e2]
  norm_num

/-- C9 amended: in the direct service of src/services/geminiService.ts the
AGGRESSIVE temperature (1.0) is strictly higher than the NATURAL one
(0.7) for every text; in the adapter of src/unnamed/part_001 the
AGGRESSIVE path routes through `smartHumanize`, so its rewrite-request
temperature exceeds NATURAL's 0.9 exactly when the preliminary analysis
reports aiProbability above 80 (then 1.0), and otherwise stays at or
below it (0.7 or 0.9). -/
theorem C9_temperature_by_mode (a : ℚ) :
    gsRewriteTemp .AGGRESSIVE > gsRewriteTemp .NATURAL ∧
    (80 < a → rewriteRequestTemp .AGGRESSIVE a > rewriteRequestTemp .NATURAL a) ∧
    (a ≤ 80 → rewriteRequestTemp .AGGRESSIVE a ≤ rewriteRequestTemp .NATURAL a) := by
  have e2 : rewriteRequestTemp .NATURAL a = 0.9 := humanizeTemp_eval_natural
  refine ⟨?_, ?_, ?_⟩
  · rw [gsRewriteTemp_eval_aggressive, gsRewriteTemp_eval_natural]
    norm_num
  · intro h
    have e1 : rewriteRequestTemp .AGGRESSIVE a = 1 := by
      show humanizeTemp (smartHumanizeMode a) = 1
      unfold smartHumanizeMode
      rw [if_pos h]
      exact humanizeTemp_eval_none
    rw [e1, e2]
    norm_num
  · intro h
    have h80 : ¬ 80 < a := not_lt.mpr h
    by_cases h40 : 40 < a
    · have e1 : rewriteRequestTemp .AGGRESSIVE a = 0.7 := by
        show humanizeTemp (smartHumanizeMode a) = 0.7
        unfold smartHumanizeMode
        rw [if_neg h80, if_pos h40]
        exact humanizeTemp_eval_academic
      rw [e1, e2]
      norm_num
    · have e1 : rewriteRequestTemp .AGGRESSIVE a = 0.9 := by
        show humanizeTemp (smartHumanizeMode a) = 0.9
        unfold smartHumanizeMode
        rw [if_neg h80, if_neg h40]
        exact humanizeTemp_eval_natural
      rw [e1, e2]

theorem C9_witness :
    gsRewriteTemp .AGGRESSIVE > gsRewriteTemp .NATURAL ∧
    rewriteRequestTemp .AGGRESSIVE 90 > rewriteRequestTemp .NATURAL 90 ∧
    rewriteRequestTemp .AGGRESSIVE 50 ≤ rewriteRequestTemp .NATURAL 50 :=
  ⟨(C9_temperature_by_mode 90).1,
   (C9_temperature_by_mode 90).2.1 (by norm_num),
   (C9_temperature_by_mode 50).2.2 (by norm_num)⟩

end VireScan
